import Mathlib

set_option maxRecDepth 8000

/-!
Verification development for the executor service: workspace lifecycle
manager (workspace/manager.py), static import validator (sandbox/validator.py),
sandbox runner (sandbox/runner.py), tool primitives (sandbox/tools.py) and the
run_code HTTP handler (api/routes.py).

Paths are modelled as lists of components; the filesystem as a map from
absolute component paths to entries.  Symbolic links are not modelled, so
POSIX path canonicalization is the textual processing of the segments
"", "." and "..".  Machine-level details (process ids, wall-clock floats,
thread scheduling) are abstracted: the outcome of executing a code fragment
is an explicit datum, and subprocess invocations are oracles passed in.
-/

/-- Splits a list of characters on the separator character of POSIX paths,
accumulating the current segment.  Mirrors how pathlib splits the textual
form of a path into components. -/
def splitCharsAux : List Char → List Char → List String
  | [], acc => [String.mk acc]
  | c :: rest, acc =>
    if c = '/' then String.mk acc :: splitCharsAux rest []
    else splitCharsAux rest (acc ++ [c])

/-- Splits a path string into raw segments (empty segments kept). -/
def splitSegs (ref : String) : List String := splitCharsAux ref.data []

/-- Whether a path string is absolute (leading separator). -/
def isAbs (ref : String) : Bool :=
  match ref.data with
  | c :: _ => c = '/'
  | [] => false

/-- Processes raw segments over an accumulated absolute path: empty and "."
segments are skipped, ".." removes the last component (at the root it is a
no-op, as in POSIX), anything else is appended.  This is what
`Path.resolve()` computes in the absence of symbolic links. -/
def resolveSegs : List String → List String → List String
  | acc, [] => acc
  | acc, s :: rest =>
    if s = "" || s = "." then resolveSegs acc rest
    else if s = ".." then resolveSegs acc.dropLast rest
    else resolveSegs (acc ++ [s]) rest

/-- Canonical absolute path of `base / ref` — the model of
`(base / workspace_ref).resolve()`.  An absolute `ref` discards `base`,
exactly as the pathlib `/` operator does. -/
def resolvePath (base : List String) (ref : String) : List String :=
  resolveSegs (if isAbs ref then [] else base) (splitSegs ref)

/-- Renders a component path as the string `str(path)` would produce. -/
def pathString (p : List String) : String :=
  p.foldl (fun acc c => acc ++ "/" ++ c) ""

/-- Model of Python string `startswith`: `startsWithStr s p` holds when `p`
is a character-level prefix of `s`. -/
def startsWithStr (s p : String) : Bool := p.data.isPrefixOf s.data

/-- Resolved components of WORKSPACE_BASE = /tmp/codepilot-workspaces. -/
def basePath : List String := ["tmp", "codepilot-workspaces"]

/-- Resolved components of SNAPSHOTS_DIR = WORKSPACE_BASE/snapshots. -/
def snapshotsPath : List String := basePath ++ ["snapshots"]

/-- Model of the pathlib `/` operator with a relative name: the name is split
on separators (pathlib drops empty segments); no canonicalization happens. -/
def joinPath (p : List String) (name : String) : List String :=
  p ++ (splitSegs name).filter (fun s => s ≠ "")

/-- A filesystem entry: a directory, a regular file with text contents, or a
stored tar archive.  An archive holds the relative tree that `tar -x` would
recreate (a map from relative component paths to entries). -/
inductive Entry where
  | dir : Entry
  | file : String → Entry
  | archive : (List String → Option Entry) → Entry

/-- A filesystem: a map from absolute component paths to entries.  `none`
means the path does not exist. -/
abbrev FSMap := List String → Option Entry

/-- A relative tree, as stored inside a tar archive. -/
abbrev ArchMap := List String → Option Entry

/-- Process-visible state: the filesystem and the current unix time in
seconds (`int(time.time())`). -/
structure FSState where
  fs : FSMap
  now : Nat

/-- Model of `shutil.rmtree p`: every path having `p` as a component-path
ancestor (including `p` itself) is removed. -/
def rmtree (fs : FSMap) (p : List String) : FSMap :=
  fun q => if p.isPrefixOf q then none else fs q

/-- Model of `p.mkdir(parents=True, exist_ok=True)`: `p` and each of its
ancestors becomes a directory where nothing existed before; existing entries
are untouched. -/
def mkdirp (fs : FSMap) (p : List String) : FSMap :=
  fun q => if q.isPrefixOf p && (fs q).isNone then some Entry.dir else fs q

/-- Plants a fresh subtree rooted at `p`: under `p` the filesystem becomes
exactly `t` (this is what `git clone` into a new directory produces). -/
def plantAt (fs : FSMap) (p : List String) (t : ArchMap) : FSMap :=
  fun q => if p.isPrefixOf q then t (q.drop p.length) else fs q

/-- Overlays a relative tree rooted at `p` onto the filesystem: entries of
`t` win, everything else keeps its old value (this is what `tar -x -C p`
does into an existing directory hierarchy). -/
def graftAt (fs : FSMap) (p : List String) (t : ArchMap) : FSMap :=
  fun q =>
    if p.isPrefixOf q then
      match t (q.drop p.length) with
      | some e => some e
      | none => fs q
    else fs q

/-- Writes a single entry at an exact path. -/
def setEntry (fs : FSMap) (p : List String) (e : Entry) : FSMap :=
  fun q => if q = p then some e else fs q

/-- The Python exception classes raised by the manager and the tools. -/
inductive PyErr where
  | valueError : PyErr
  | fileExistsError : PyErr
  | fileNotFoundError : PyErr
  | runtimeError : PyErr
  | permissionError : PyErr
deriving DecidableEq

/-- Model of `_safe_workspace_path` (workspace/manager.py:36-50): resolve
`WORKSPACE_BASE / workspace_ref` and require the string form of the result
to start with the string form of the base; otherwise raise ValueError. -/
def safeWorkspacePath (ref : String) : Except PyErr (List String) :=
  let resolved := resolvePath basePath ref
  if startsWithStr (pathString resolved) (pathString basePath) then .ok resolved
  else .error .valueError

/-- Outcome of the clone-and-checkout step of create_workspace: either the
whole step succeeded leaving a checked-out tree rooted at the workspace
directory, or some command raised, leaving a (possibly empty) leftover
tree behind. -/
inductive GitOutcome where
  | cloned : ArchMap → GitOutcome
  | failed : ArchMap → GitOutcome

/-- Model of `create_workspace` (workspace/manager.py:73-115).  The clone
path (shallow versus full-then-checkout) differs only in the external git
commands issued; its filesystem effect is captured by the `GitOutcome`
oracle.  On failure the partially created directory is removed
(shutil.rmtree with ignore_errors) and the error is re-raised. -/
def create_workspace (s : FSState) (ref : String) (git : GitOutcome) :
    Except PyErr Unit × FSState :=
  match safeWorkspacePath ref with
  | .error e => (.error e, s)
  | .ok wsDir =>
    if (s.fs wsDir).isSome then (.error .fileExistsError, s)
    else
      let fs1 := mkdirp s.fs basePath
      match git with
      | .cloned tree => (.ok (), ⟨plantAt fs1 wsDir tree, s.now⟩)
      | .failed leftover =>
          (.error .runtimeError, ⟨rmtree (plantAt fs1 wsDir leftover) wsDir, s.now⟩)

/-- Model of `delete_workspace` (workspace/manager.py:118-133). -/
def delete_workspace (s : FSState) (ref : String) : Except PyErr Unit × FSState :=
  match safeWorkspacePath ref with
  | .error e => (.error e, s)
  | .ok wsDir =>
    if (s.fs wsDir).isSome then (.ok (), ⟨rmtree s.fs wsDir, s.now⟩)
    else (.error .fileNotFoundError, s)

/-- Path of the archive for a snapshot key:
SNAPSHOTS_DIR / (key ++ ".tar.gz"). -/
def archivePath (key : String) : List String :=
  joinPath snapshotsPath (key ++ ".tar.gz")

/-- Contents of `tar -czf … -C WORKSPACE_BASE member`: all entries whose
base-relative path has the member path as an ancestor, keyed by their
base-relative path. -/
def tarArchive (fs : FSMap) (member : List String) : ArchMap :=
  fun rel => if member.isPrefixOf rel then fs (basePath ++ rel) else none

/-- Model of `snapshot_workspace` (workspace/manager.py:136-175).  The
returned size_bytes is not modelled (no claim mentions it); the key is
`ref ++ "-" ++ unix seconds` exactly as in the source. -/
def snapshot_workspace (s : FSState) (ref : String) : Except PyErr String × FSState :=
  match safeWorkspacePath ref with
  | .error e => (.error e, s)
  | .ok wsDir =>
    if (s.fs wsDir).isSome then
      let fs1 := mkdirp s.fs snapshotsPath
      let key := ref ++ "-" ++ toString s.now
      let arch := tarArchive fs1 (splitSegs ref)
      (.ok key, ⟨setEntry fs1 (archivePath key) (Entry.archive arch), s.now⟩)
    else (.error .fileNotFoundError, s)

/-- Model of `restore_workspace` (workspace/manager.py:178-209): check the
archive exists, then the traversal check on the ref, then remove the current
workspace directory if present, then extract the archive into the base.
A stored entry that is not a tar archive makes the extraction step fail
after the removal, mirroring the order of operations in the source. -/
def restore_workspace (s : FSState) (ref : String) (key : String) :
    Except PyErr Unit × FSState :=
  match s.fs (archivePath key) with
  | none => (.error .fileNotFoundError, s)
  | some e =>
    match safeWorkspacePath ref with
    | .error err => (.error err, s)
    | .ok wsDir =>
      let fs1 := if (s.fs wsDir).isSome then rmtree s.fs wsDir else s.fs
      match e with
      | .archive a => (.ok (), ⟨graftAt fs1 basePath a, s.now⟩)
      | _ => (.error .runtimeError, ⟨fs1, s.now⟩)

/-- A statement of a parsed code fragment, as seen by `ast.walk`: a plain
plain import with a list of `(module, alias)` pairs, a from-import with an
optional dotted module, a relative level and imported names, or any other
node.  `ast.walk` flattens the tree, so a fragment is a list of these. -/
inductive PyStmt where
  | imp : List (String × Option String) → PyStmt
  | impFrom : Option String → Nat → List (String × Option String) → PyStmt
  | other : PyStmt

/-- The allowlist of sandbox/validator.py:21-38, verbatim. -/
def ALLOWED_MODULES : List String :=
  ["os", "subprocess", "pathlib", "json", "re", "shutil", "difflib", "textwrap",
   "xml", "xml.etree", "xml.etree.ElementTree",
   "collections", "itertools", "functools", "tempfile", "typing"]

/-- Text before the first dot of a dotted module name:
`module_name.split(".")[0]`. -/
def rootSegment (m : String) : String :=
  String.mk (m.data.takeWhile (fun c => c ≠ '.'))

/-- Model of `_check_module` (sandbox/validator.py:71-79); the error string
is the SecurityError message. -/
def check_module (m : String) : Except String Unit :=
  if ALLOWED_MODULES.contains (rootSegment m) then .ok ()
  else .error ("Import not allowed: " ++ m)

/-- Checks every alias of a plain import statement, stopping at the first
violation, as iterating `node.names` does. -/
def checkAliases : List (String × Option String) → Except String Unit
  | [] => .ok ()
  | (n, _) :: rest =>
    match check_module n with
    | .error e => .error e
    | .ok () => checkAliases rest

/-- Check of one walked node (sandbox/validator.py:59-68): plain imports
check every alias name; from-imports check the module only when one is
present (`if node.module:`); other nodes are ignored. -/
def checkStmt : PyStmt → Except String Unit
  | .imp names => checkAliases names
  | .impFrom (some m) _ _ => check_module m
  | .impFrom none _ _ => .ok ()
  | .other => .ok ()

/-- Model of `validate_imports` (sandbox/validator.py:46-68) on an already
parsed fragment. -/
def validate_imports : List PyStmt → Except String Unit
  | [] => .ok ()
  | s :: rest =>
    match checkStmt s with
    | .error e => .error e
    | .ok () => validate_imports rest

/-- The result record of models.py:25-41.  The float `elapsed_sec` is not
modelled (no claim depends on it). -/
structure ExecutionResult where
  exit_code : Nat
  stdout : String
  stderr : String
  error_type : Option String
deriving DecidableEq

/-- What happens when the validated fragment is handed to the worker thread:
it completes having printed some stdout; it raises an exception deriving
from `Exception`, producing a traceback; it raises a `BaseException` that
does not derive from `Exception` (SystemExit, KeyboardInterrupt); or it is
still running when the timeout elapses. -/
inductive ExecOutcome where
  | completes : String → ExecOutcome
  | raisesExc : String → String → ExecOutcome
  | raisesBase : String → String → ExecOutcome
  | hangs : String → ExecOutcome

/-- Model of `run_code` (sandbox/runner.py:76-185) on a parsed fragment.
A SecurityError from validation yields the POLICY_VIOLATION result before
anything executes.  After that, the try block around `future.result` has
`except FuturesTimeout` and `except Exception` arms only, so an outcome
raising a bare `BaseException` propagates to the caller — modelled by an
`Except.error` carrying the exception name.  On timeout the runner writes
the one-line note to the empty stderr buffer and abandons the worker,
returning immediately. -/
def run_code (frag : List PyStmt) (timeout_sec : Nat) (outcome : ExecOutcome) :
    Except String ExecutionResult :=
  match validate_imports frag with
  | .error e => .ok ⟨1, "", e, some "POLICY_VIOLATION"⟩
  | .ok () =>
    match outcome with
    | .completes printed => .ok ⟨0, printed, "", none⟩
    | .raisesExc tb printed => .ok ⟨1, printed, tb, none⟩
    | .raisesBase e _ => .error e
    | .hangs printed =>
        .ok ⟨1, printed,
             "Execution timed out after " ++ toString timeout_sec ++ "s.\n",
             some "TIMEOUT"⟩

/-- Model of `handle_run_code` (api/routes.py:137-157): the handler joins
the raw `workspace_ref` onto WORKSPACE_BASE and calls mkdir(parents=True,
exist_ok=True) on it — with no traversal check of any kind — before
delegating to `run_code`.  The directory the OS creates is the canonical
form of the joined path. -/
def handle_run_code (s : FSState) (ref : String) (frag : List PyStmt)
    (t : Nat) (o : ExecOutcome) : Except String ExecutionResult × FSState :=
  let wsDir := resolvePath basePath ref
  (run_code frag t o, ⟨mkdirp s.fs wsDir, s.now⟩)

/-- The command allowlist of sandbox/tools.py:28, verbatim. -/
def ALLOWED_COMMANDS : List String := ["mvn", "./gradlew", "java", "git", "rg"]

/-- The record returned by `run_command`: the relevant fields of a
CompletedProcess. -/
structure CmdResult where
  exit_code : Int
  stdout : String
  stderr : String
deriving DecidableEq

/-- Model of the `run_command` tool (sandbox/tools.py:175-204).  `sub` is
the subprocess oracle: given the argv vector and the working directory it
returns what `subprocess.run` would capture. -/
def run_command (sub : List String → List String → CmdResult) (ws : List String)
    (cmd : List String) : Except PyErr CmdResult :=
  match cmd with
  | [] => .error .valueError
  | exe :: _ =>
    if ALLOWED_COMMANDS.contains exe then .ok (sub cmd ws)
    else .error .permissionError

/-- Model of the `_safe_path` closure of build_tools (sandbox/tools.py:45-57):
resolve the argument against the canonical workspace root and require the
string form of the result to start with the root's string form; otherwise
raise PermissionError. -/
def safeToolPath (ws : List String) (rel : String) : Except PyErr (List String) :=
  let resolved := resolvePath ws rel
  if startsWithStr (pathString resolved) (pathString ws) then .ok resolved
  else .error .permissionError

/-- Model of the `read_file` tool (sandbox/tools.py:63-65). -/
def read_file (fs : FSMap) (ws : List String) (p : String) : Except PyErr String :=
  match safeToolPath ws p with
  | .error e => .error e
  | .ok t =>
    match fs t with
    | some (.file c) => .ok c
    | _ => .error .fileNotFoundError

/-- Model of the `write_file` tool (sandbox/tools.py:67-71): traversal check,
create parent directories, then write the file. -/
def write_file (fs : FSMap) (ws : List String) (p : String) (content : String) :
    Except PyErr FSMap :=
  match safeToolPath ws p with
  | .error e => .error e
  | .ok t => .ok (setEntry (mkdirp fs t.dropLast) t (Entry.file content))

/-- Following the words of the claim: the root segment (text before the
first dot) of a module name lies outside the claim's fourteen-element set. -/
def claimAllowedRoots : List String :=
  ["os", "subprocess", "pathlib", "json", "re", "shutil", "difflib", "textwrap",
   "xml", "collections", "itertools", "functools", "tempfile", "typing"]

/-- Following the words of the claim: the module name of a statement has a
root segment outside `claimAllowedRoots`. -/
def stmtHasBadImport : PyStmt → Bool
  | .imp names => names.any (fun a => !(claimAllowedRoots.contains (rootSegment a.1)))
  | .impFrom (some m) _ _ => !(claimAllowedRoots.contains (rootSegment m))
  | .impFrom none _ _ => false
  | .other => false

/-- Following the words of the claim: the fragment contains an import or
from-import statement whose dotted module name has a root segment outside
the allowed set. -/
def fragHasBadImport (frag : List PyStmt) : Bool := frag.any stmtHasBadImport

/-- A concrete filesystem used by witnesses: /tmp, the workspace base, its
snapshots directory, and one workspace job1 holding one file. -/
def fsFixture : FSMap := fun q =>
  if q = ["tmp"] then some Entry.dir
  else if q = basePath then some Entry.dir
  else if q = snapshotsPath then some Entry.dir
  else if q = basePath ++ ["job1"] then some Entry.dir
  else if q = basePath ++ ["job1", "README.md"] then some (Entry.file "hello")
  else none

/-- The fixture filesystem at unix time 5. -/
def stFixture : FSState := ⟨fsFixture, 5⟩

/-- An empty filesystem at unix time 0. -/
def stEmpty : FSState := ⟨fun _ => none, 0⟩

/-- The state after snapshotting the fixture workspace. -/
def s1Fixture : FSState := (snapshot_workspace stFixture "job1").2

/-- The archive contents stored by that snapshot. -/
def archFixture : ArchMap :=
  tarArchive (mkdirp fsFixture snapshotsPath) (splitSegs "job1")

/-! ### Helper lemmas -/

theorem foldl_pathStep_data (l : List String) (acc : String) :
    ∃ t, (l.foldl (fun a c => a ++ "/" ++ c) acc).data = acc.data ++ t := by
  induction l generalizing acc with
  | nil => exact ⟨[], by simp⟩
  | cons c rest ih =>
    obtain ⟨t, ht⟩ := ih (acc ++ "/" ++ c)
    refine ⟨("/" ++ c).data ++ t, ?_⟩
    rw [List.foldl_cons, ht]
    simp

theorem startsWith_pathString_append (p l : List String) :
    startsWithStr (pathString (p ++ l)) (pathString p) = true := by
  unfold startsWithStr pathString
  rw [List.foldl_append]
  obtain ⟨t, ht⟩ := foldl_pathStep_data l (p.foldl (fun a c => a ++ "/" ++ c) "")
  rw [ht]
  simp

theorem safeWorkspacePath_ok (ref : String) (l : List String)
    (h : resolvePath basePath ref = basePath ++ l) :
    safeWorkspacePath ref = .ok (basePath ++ l) := by
  unfold safeWorkspacePath
  simp [h, startsWith_pathString_append]

theorem isPrefixOf_append_self (p t : List String) : p.isPrefixOf (p ++ t) = true := by
  simp

theorem archivePath_shape (key : String) :
    ∃ t, archivePath key = basePath ++ ("snapshots" :: t) := by
  refine ⟨(splitSegs (key ++ ".tar.gz")).filter (fun s => s ≠ ""), ?_⟩
  simp [archivePath, joinPath, snapshotsPath]

theorem wsDir_not_pre_archive (ref key : String) (hns : ref ≠ "snapshots") :
    (basePath ++ [ref]).isPrefixOf (archivePath key) = false := by
  obtain ⟨t, ht⟩ := archivePath_shape key
  rw [ht]
  show List.isPrefixOf ("tmp" :: "codepilot-workspaces" :: ref :: [])
    ("tmp" :: "codepilot-workspaces" :: "snapshots" :: t) = false
  simp [List.isPrefixOf, hns]

theorem wsSub_not_pre_snapshots (ref : String) (rest : List String) (hns : ref ≠ "snapshots") :
    (basePath ++ ([ref] ++ rest)).isPrefixOf snapshotsPath = false := by
  show List.isPrefixOf ("tmp" :: "codepilot-workspaces" :: ref :: rest)
    ("tmp" :: "codepilot-workspaces" :: "snapshots" :: []) = false
  simp [List.isPrefixOf, hns]

theorem rootSegment_no_dot (m : String) : '.' ∉ (rootSegment m).data := by
  intro h
  rw [show (rootSegment m).data = m.data.takeWhile (fun c => c ≠ '.') from rfl] at h
  have h2 := List.mem_takeWhile_imp h
  simp at h2

theorem rootSegment_ne_dotted (m : String) :
    rootSegment m ≠ "xml.etree" ∧ rootSegment m ≠ "xml.etree.ElementTree" := by
  constructor <;> intro h <;> apply rootSegment_no_dot m <;> rw [h] <;> decide

theorem contains_allowed_eq (m : String) :
    ALLOWED_MODULES.contains (rootSegment m) = claimAllowedRoots.contains (rootSegment m) := by
  obtain ⟨h1, h2⟩ := rootSegment_ne_dotted m
  show (ALLOWED_MODULES.elem (rootSegment m)) = (claimAllowedRoots.elem (rootSegment m))
  rw [List.elem_eq_mem, List.elem_eq_mem]
  apply decide_eq_decide.mpr
  simp only [ALLOWED_MODULES, claimAllowedRoots, List.mem_cons, List.not_mem_nil, or_false]
  constructor
  · intro h
    rcases h with h|h|h|h|h|h|h|h|h|h|h|h|h|h|h|h <;>
      first
        | (exact absurd h h1)
        | (exact absurd h h2)
        | tauto
  · intro h
    tauto

theorem check_module_eq (m : String) :
    check_module m =
      (if claimAllowedRoots.contains (rootSegment m) then .ok ()
       else .error ("Import not allowed: " ++ m)) := by
  unfold check_module
  rw [contains_allowed_eq]

theorem checkAliases_ok_iff (names : List (String × Option String)) :
    checkAliases names = .ok () ↔
      (names.any fun a => !(claimAllowedRoots.contains (rootSegment a.1))) = false := by
  induction names with
  | nil => simp [checkAliases]
  | cons a rest ih =>
    obtain ⟨n, asn⟩ := a
    by_cases hc : rootSegment n ∈ claimAllowedRoots
    · have hcm : check_module n = .ok () := by
        rw [check_module_eq]
        simp [hc]
      simp [checkAliases, hcm, ih, hc]
    · have hcm : check_module n = .error ("Import not allowed: " ++ n) := by
        rw [check_module_eq]
        simp [hc]
      simp [checkAliases, hcm, hc]

theorem checkStmt_ok_iff (s : PyStmt) : checkStmt s = .ok () ↔ stmtHasBadImport s = false := by
  cases s with
  | imp names => simpa [checkStmt, stmtHasBadImport] using checkAliases_ok_iff names
  | impFrom mo lvl names =>
    cases mo with
    | none => simp [checkStmt, stmtHasBadImport]
    | some m =>
      cases hc : claimAllowedRoots.contains (rootSegment m) with
      | true => simp [checkStmt, stmtHasBadImport, check_module_eq, hc]
      | false => simp [checkStmt, stmtHasBadImport, check_module_eq, hc]
  | other => simp [checkStmt, stmtHasBadImport]

theorem validate_imports_ok_iff (frag : List PyStmt) :
    validate_imports frag = .ok () ↔ fragHasBadImport frag = false := by
  induction frag with
  | nil => simp [validate_imports, fragHasBadImport]
  | cons s rest ih =>
    cases hcs : checkStmt s with
    | ok u =>
      cases u
      have hb : stmtHasBadImport s = false := (checkStmt_ok_iff s).mp hcs
      simp [validate_imports, fragHasBadImport, hcs, hb, ih]
    | error e =>
      have hb : stmtHasBadImport s = true := by
        cases hsb : stmtHasBadImport s
        · rw [(checkStmt_ok_iff s).mpr hsb] at hcs
          exact Except.noConfusion hcs
        · rfl
      simp [validate_imports, fragHasBadImport, hcs, hb]

theorem snapshot_eq_ok (s : FSState) (ref : String) (wsDir : List String)
    (hsafe : safeWorkspacePath ref = .ok wsDir)
    (hex : (s.fs wsDir).isSome = true) :
    snapshot_workspace s ref =
      (.ok (ref ++ "-" ++ toString s.now),
       ⟨setEntry (mkdirp s.fs snapshotsPath)
          (archivePath (ref ++ "-" ++ toString s.now))
          (Entry.archive (tarArchive (mkdirp s.fs snapshotsPath) (splitSegs ref))),
        s.now⟩) := by
  unfold snapshot_workspace
  rw [hsafe]
  simp [hex]

theorem snapshot_eq_notfound (s : FSState) (ref : String) (wsDir : List String)
    (hsafe : safeWorkspacePath ref = .ok wsDir)
    (hex : (s.fs wsDir).isSome = false) :
    snapshot_workspace s ref = (.error .fileNotFoundError, s) := by
  unfold snapshot_workspace
  rw [hsafe]
  simp [hex]

theorem restore_eq_ok (s : FSState) (ref key : String) (wsDir : List String) (a : ArchMap)
    (hsafe : safeWorkspacePath ref = .ok wsDir)
    (harch : s.fs (archivePath key) = some (Entry.archive a)) :
    restore_workspace s ref key =
      (.ok (),
       ⟨graftAt (if (s.fs wsDir).isSome then rmtree s.fs wsDir else s.fs) basePath a,
        s.now⟩) := by
  unfold restore_workspace
  rw [harch, hsafe]

theorem delete_eq_ok (s : FSState) (ref : String) (wsDir : List String)
    (hsafe : safeWorkspacePath ref = .ok wsDir)
    (hex : (s.fs wsDir).isSome = true) :
    delete_workspace s ref = (.ok (), ⟨rmtree s.fs wsDir, s.now⟩) := by
  unfold delete_workspace
  rw [hsafe]
  simp [hex]

theorem create_eq_exists (s : FSState) (ref : String) (wsDir : List String)
    (hsafe : safeWorkspacePath ref = .ok wsDir)
    (hex : (s.fs wsDir).isSome = true) (git : GitOutcome) :
    create_workspace s ref git = (.error .fileExistsError, s) := by
  unfold create_workspace
  rw [hsafe]
  simp [hex]

theorem create_eq_failed (s : FSState) (ref : String) (wsDir : List String)
    (hsafe : safeWorkspacePath ref = .ok wsDir)
    (hex : (s.fs wsDir).isSome = false) (leftover : ArchMap) :
    create_workspace s ref (.failed leftover) =
      (.error .runtimeError,
       ⟨rmtree (plantAt (mkdirp s.fs basePath) wsDir leftover) wsDir, s.now⟩) := by
  unfold create_workspace
  rw [hsafe]
  simp [hex]

/-- Claim C2 (confirmed): for every syntactically valid fragment, `run_code`
returns exit_code 1, error_type POLICY_VIOLATION and empty stdout exactly
when the fragment contains an import or from-import whose dotted module name
has a root segment outside the claimed fourteen-element allowlist; aliasing
is irrelevant (alias names are never consulted), and when this happens the
result does not depend on what executing the fragment would have done. -/
theorem spec_c2 (frag : List PyStmt) (t : Nat) (o : ExecOutcome) :
    ((∃ r, run_code frag t o = .ok r ∧ r.exit_code = 1 ∧
        r.error_type = some "POLICY_VIOLATION" ∧ r.stdout = "") ↔
      fragHasBadImport frag = true) ∧
    (fragHasBadImport frag = true → ∀ o2, run_code frag t o = run_code frag t o2) := by
  cases hv : validate_imports frag with
  | ok u =>
    cases u
    have hb : fragHasBadImport frag = false := (validate_imports_ok_iff frag).mp hv
    constructor
    · apply iff_of_false
      · rintro ⟨r, hr, h1, h2, h3⟩
        cases o with
        | completes p =>
          simp [run_code, hv] at hr
          subst hr
          simp at h2
        | raisesExc tb p =>
          simp [run_code, hv] at hr
          subst hr
          simp at h2
        | raisesBase e p =>
          simp [run_code, hv] at hr
        | hangs p =>
          simp [run_code, hv] at hr
          subst hr
          simp at h2
      · simp [hb]
    · intro hcontra
      rw [hb] at hcontra
      exact Bool.noConfusion hcontra
  | error e =>
    have hb : fragHasBadImport frag = true := by
      cases hfb : fragHasBadImport frag
      · rw [(validate_imports_ok_iff frag).mpr hfb] at hv
        exact Except.noConfusion hv
      · rfl
    constructor
    · apply iff_of_true _ hb
      exact ⟨⟨1, "", e, some "POLICY_VIOLATION"⟩, by simp [run_code, hv], rfl, rfl, rfl⟩
    · intro _ o2
      simp [run_code, hv]

/-- Witness for C2 at the fragment `import socket as s` and a completing
execution outcome. -/
theorem spec_c2_witness :
    (∃ r, run_code [PyStmt.imp [("socket", some "s")]] 60 (.completes "x") = .ok r ∧
      r.exit_code = 1 ∧ r.error_type = some "POLICY_VIOLATION" ∧ r.stdout = "") ∧
    fragHasBadImport [PyStmt.imp [("socket", some "s")]] = true :=
  ⟨(spec_c2 [PyStmt.imp [("socket", some "s")]] 60 (.completes "x")).1.mpr (by decide),
   by decide⟩

/-- Claim C3 (confirmed): when a validated fragment is still running at the
deadline, `run_code` returns (rather than waiting for the stuck worker,
which is abandoned) with exit_code 1, error_type TIMEOUT, and stderr equal
to the one-line note naming timeout_sec. -/
theorem spec_c3 (frag : List PyStmt) (t : Nat) (printed : String)
    (hval : validate_imports frag = .ok ()) :
    run_code frag t (.hangs printed) =
      .ok ⟨1, printed, "Execution timed out after " ++ toString t ++ "s.\n",
           some "TIMEOUT"⟩ := by
  simp [run_code, hval]

/-- Witness for C3: an import-free fragment hanging past a 1-second budget. -/
theorem spec_c3_witness :
    run_code [PyStmt.other] 1 (.hangs "") =
      .ok ⟨1, "", "Execution timed out after " ++ toString 1 ++ "s.\n",
           some "TIMEOUT"⟩ :=
  spec_c3 [PyStmt.other] 1 "" rfl

/-- Claim C5 (code_bug): the runner catches `except Exception` only, so a
fragment raising a bare BaseException such as `raise SystemExit` escapes
`run_code` instead of being encoded in an ExecutionResult — contradicting
the never-throws contract and the source comment that any exception raised
inside exec() surfaces in that handler.  An ordinary Exception, by
contrast, is encoded as exit 1, error_type none, traceback on stderr. -/
theorem spec_c5_bug :
    run_code [PyStmt.other] 60 (.raisesBase "SystemExit" "") = .error "SystemExit" ∧
    run_code [PyStmt.other] 60 (.raisesExc "Traceback: ValueError: oops" "") =
      .ok ⟨1, "", "Traceback: ValueError: oops", none⟩ :=
  ⟨rfl, rfl⟩

/-- Claim C8 (confirmed): `run_command` raises ValueError on an empty argv,
raises PermissionError exactly when argv head is outside the allowlist, and
for allowed heads runs the command with the workspace as working directory,
returning the exit_code/stdout/stderr record. -/
theorem spec_c8 (sub : List String → List String → CmdResult) (ws cmd : List String) :
    (cmd = [] → run_command sub ws cmd = .error .valueError) ∧
    (∀ exe rest, cmd = exe :: rest →
      (run_command sub ws cmd = .error .permissionError ↔
        ALLOWED_COMMANDS.contains exe = false)) ∧
    (∀ exe rest, cmd = exe :: rest → ALLOWED_COMMANDS.contains exe = true →
      run_command sub ws cmd = .ok (sub cmd ws)) := by
  refine ⟨?_, ?_, ?_⟩
  · rintro rfl
    rfl
  · rintro exe rest rfl
    by_cases hm : exe ∈ ALLOWED_COMMANDS
    · simp [run_command, hm]
    · simp [run_command, hm]
  · rintro exe rest rfl hc
    have hm : exe ∈ ALLOWED_COMMANDS := by simpa using hc
    simp [run_command, hm]

/-- Witness for C8: git is allowed, curl is rejected, empty argv raises. -/
theorem spec_c8_witness :
    run_command (fun _ _ => ⟨0, "", ""⟩) [] ["git", "status"] = .ok ⟨0, "", ""⟩ ∧
    run_command (fun _ _ => ⟨0, "", ""⟩) [] ["curl"] = .error .permissionError ∧
    run_command (fun _ _ => ⟨0, "", ""⟩) [] [] = .error .valueError := by
  refine ⟨?_, ?_, ?_⟩
  · exact (spec_c8 (fun _ _ => ⟨0, "", ""⟩) [] ["git", "status"]).2.2 "git" ["status"]
      rfl (by decide)
  · exact ((spec_c8 (fun _ _ => ⟨0, "", ""⟩) [] ["curl"]).2.1 "curl" [] rfl).2 (by decide)
  · exact (spec_c8 (fun _ _ => ⟨0, "", ""⟩) [] []).1 rfl

/-- Claim C9 (confirmed): a fragment consisting only of from-imports that
omit the module name (purely relative imports) passes static validation,
whatever names it imports, because the validator only checks a from-import
when a module name is present. -/
theorem spec_c9 (frag : List PyStmt)
    (h : ∀ s ∈ frag, ∃ lvl names, s = PyStmt.impFrom none lvl names) :
    validate_imports frag = .ok () := by
  induction frag with
  | nil => rfl
  | cons s rest ih =>
    obtain ⟨lvl, names, rfl⟩ := h s (List.mem_cons_self s rest)
    simpa [validate_imports, checkStmt] using
      ih (fun x hx => h x (List.mem_cons_of_mem _ hx))

/-- Witness for C9: `from . import socket` passes validation even though
the imported name is outside the allowlist. -/
theorem spec_c9_witness :
    validate_imports [PyStmt.impFrom none 1 [("socket", none)]] = .ok () :=
  spec_c9 [PyStmt.impFrom none 1 [("socket", none)]] (by
    intro s hs
    simp at hs
    subst hs
    exact ⟨1, [("socket", none)], rfl⟩)

/-- Claim C1 (corrected) — counterexample: the run_code HTTP handler
performs no traversal check at all.  With workspace_ref "../evil" the
canonical target /tmp/evil does not lie under WORKSPACE_BASE (the string
check itself fails on it), yet the handler creates that directory and
returns a normal result instead of failing. -/
theorem spec_c1_counterexample :
    resolvePath basePath "../evil" = ["tmp", "evil"] ∧
    startsWithStr (pathString (resolvePath basePath "../evil")) (pathString basePath) =
      false ∧
    ((handle_run_code stEmpty "../evil" [PyStmt.other] 60 (.completes "")).2.fs
      ["tmp", "evil"]).isSome = true ∧
    (handle_run_code stEmpty "../evil" [PyStmt.other] 60 (.completes "")).1 =
      .ok ⟨0, "", "", none⟩ :=
  ⟨by decide, by decide, by decide, rfl⟩

/-- Claim C1 (corrected) — the amended claim: the four workspace manager
operations and the tool primitives fail before any filesystem mutation
whenever the canonicalized target's string form does not have the string
form of the root as a (non-strict) prefix; the run_code HTTP handler
performs no such check (see the counterexample).  For restore the archive
lookup precedes the check, so a missing archive reports not-found first;
either way the state is unchanged. -/
theorem spec_c1_amended (ref : String) (s : FSState)
    (h : startsWithStr (pathString (resolvePath basePath ref)) (pathString basePath) =
      false) :
    (∀ git, create_workspace s ref git = (.error .valueError, s)) ∧
    delete_workspace s ref = (.error .valueError, s) ∧
    snapshot_workspace s ref = (.error .valueError, s) ∧
    (∀ key, (∃ e, (restore_workspace s ref key).1 = .error e) ∧
      (restore_workspace s ref key).2 = s) ∧
    (∀ ws rel c, startsWithStr (pathString (resolvePath ws rel)) (pathString ws) =
        false →
      safeToolPath ws rel = .error .permissionError ∧
      read_file s.fs ws rel = .error .permissionError ∧
      write_file s.fs ws rel c = .error .permissionError) := by
  have hsafe : safeWorkspacePath ref = .error .valueError := by
    unfold safeWorkspacePath
    simp [h]
  refine ⟨?_, ?_, ?_, ?_, ?_⟩
  · intro git
    simp [create_workspace, hsafe]
  · simp [delete_workspace, hsafe]
  · simp [snapshot_workspace, hsafe]
  · intro key
    cases harch : s.fs (archivePath key) with
    | none => exact ⟨⟨.fileNotFoundError, by simp [restore_workspace, harch]⟩,
        by simp [restore_workspace, harch]⟩
    | some e => exact ⟨⟨.valueError, by simp [restore_workspace, harch, hsafe]⟩,
        by simp [restore_workspace, harch, hsafe]⟩
  · intro ws rel c h2
    have ht : safeToolPath ws rel = .error .permissionError := by
      unfold safeToolPath
      simp [h2]
    exact ⟨ht, by simp [read_file, ht], by simp [write_file, ht]⟩

/-- Witness for the amended C1 at the traversal ref "../../etc" and, for the
tool primitives, an absolute path outside the workspace. -/
theorem spec_c1_witness :
    delete_workspace stFixture "../../etc" = (.error .valueError, stFixture) ∧
    safeToolPath (basePath ++ ["job1"]) "/etc/passwd" = .error .permissionError := by
  refine ⟨(spec_c1_amended "../../etc" stFixture (by decide)).2.1, ?_⟩
  exact ((spec_c1_amended "../../etc" stFixture (by decide)).2.2.2.2
    (basePath ++ ["job1"]) "/etc/passwd" "c" (by decide)).1

/-- Claim C6 (confirmed): create_workspace fails with FileExistsError when
the workspace directory already exists (state unchanged), and when the clone
or checkout step fails it removes the whole partially created workspace
directory before surfacing the error — everything outside the workspace
subtree and the freshly ensured base ancestors is untouched, so the same
ref can be retried. -/
theorem spec_c6 (s : FSState) (ref : String) (wsDir : List String)
    (hsafe : safeWorkspacePath ref = .ok wsDir) :
    ((s.fs wsDir).isSome = true →
      ∀ git, create_workspace s ref git = (.error .fileExistsError, s)) ∧
    ((s.fs wsDir).isSome = false → ∀ leftover,
      (create_workspace s ref (.failed leftover)).1 = .error .runtimeError ∧
      (∀ rest, (create_workspace s ref (.failed leftover)).2.fs (wsDir ++ rest) = none) ∧
      (∀ q, wsDir.isPrefixOf q = false → q.isPrefixOf basePath = false →
        (create_workspace s ref (.failed leftover)).2.fs q = s.fs q)) := by
  constructor
  · intro hex git
    exact create_eq_exists s ref wsDir hsafe hex git
  · intro hex leftover
    rw [create_eq_failed s ref wsDir hsafe hex leftover]
    refine ⟨rfl, ?_, ?_⟩
    · intro rest
      simp [rmtree, isPrefixOf_append_self]
    · intro q h1 h2
      simp [rmtree, plantAt, mkdirp, h1, h2]

/-- Witness for C6: a duplicate create on the fixture workspace fails with
FileExistsError, and a failed clone into an empty base leaves no workspace
directory behind. -/
theorem spec_c6_witness :
    create_workspace stFixture "job1" (.failed fun _ => none) =
      (.error .fileExistsError, stFixture) ∧
    (create_workspace stEmpty "job1" (.failed fun _ => none)).1 = .error .runtimeError ∧
    (create_workspace stEmpty "job1" (.failed fun _ => none)).2.fs
      (basePath ++ ["job1"] ++ []) = none := by
  refine ⟨?_, ?_, ?_⟩
  · exact (spec_c6 stFixture "job1" (basePath ++ ["job1"])
      (safeWorkspacePath_ok "job1" ["job1"] (by decide))).1 (by decide)
      (.failed fun _ => none)
  · exact ((spec_c6 stEmpty "job1" (basePath ++ ["job1"])
      (safeWorkspacePath_ok "job1" ["job1"] (by decide))).2 (by decide)
      (fun _ => none)).1
  · exact ((spec_c6 stEmpty "job1" (basePath ++ ["job1"])
      (safeWorkspacePath_ok "job1" ["job1"] (by decide))).2 (by decide)
      (fun _ => none)).2.1 []

/-- Claim C10 (confirmed): the traversal helper accepts refs resolving to
the base itself (".") and to the snapshots subdirectory ("snapshots"),
because the string-prefix check is not strict; consequently, when those
directories exist, delete_workspace "snapshots" succeeds and removes every
stored snapshot archive, and delete_workspace "." removes the entire
workspace base. -/
theorem spec_c10 (s : FSState)
    (h1 : (s.fs basePath).isSome = true)
    (h2 : (s.fs snapshotsPath).isSome = true) :
    safeWorkspacePath "." = .ok basePath ∧
    safeWorkspacePath "snapshots" = .ok snapshotsPath ∧
    (delete_workspace s "snapshots").1 = .ok () ∧
    (∀ rest, (delete_workspace s "snapshots").2.fs (snapshotsPath ++ rest) = none) ∧
    (delete_workspace s ".").1 = .ok () ∧
    (∀ q, basePath.isPrefixOf q = true → (delete_workspace s ".").2.fs q = none) := by
  have e1 : safeWorkspacePath "." = .ok basePath := by
    have := safeWorkspacePath_ok "." [] (by decide)
    simpa using this
  have e2 : safeWorkspacePath "snapshots" = .ok snapshotsPath :=
    safeWorkspacePath_ok "snapshots" ["snapshots"] (by decide)
  have d1 := delete_eq_ok s "snapshots" snapshotsPath e2 h2
  have d2 := delete_eq_ok s "." basePath e1 h1
  refine ⟨e1, e2, ?_, ?_, ?_, ?_⟩
  · rw [d1]
  · intro rest
    rw [d1]
    simp [rmtree, isPrefixOf_append_self]
  · rw [d2]
  · intro q hq
    rw [d2]
    simp [rmtree, hq]

/-- Witness for C10 on the concrete fixture filesystem: both deletes
succeed; the stored archive paths and the workspace are gone. -/
theorem spec_c10_witness :
    (delete_workspace stFixture "snapshots").1 = .ok () ∧
    (delete_workspace stFixture ".").1 = .ok () ∧
    (delete_workspace stFixture ".").2.fs (basePath ++ ["job1"]) = none := by
  refine ⟨?_, ?_, ?_⟩
  · exact (spec_c10 stFixture (by decide) (by decide)).2.2.1
  · exact (spec_c10 stFixture (by decide) (by decide)).2.2.2.2.1
  · exact (spec_c10 stFixture (by decide) (by decide)).2.2.2.2.2
      (basePath ++ ["job1"]) (by decide)

/-- Claim C7 (confirmed): restore_workspace fails with FileNotFoundError
(state untouched) when no archive exists for the key; otherwise it removes
the current workspace directory entirely before extracting — archived
entries reappear and, when the workspace existed, entries absent from the
archive are gone — and it succeeds whether or not the workspace directory
still exists, in particular after a delete between snapshot and restore. -/
theorem spec_c7 (s : FSState) (ref key : String)
    (hres : resolvePath basePath ref = basePath ++ [ref]) :
    (s.fs (archivePath key) = none →
      restore_workspace s ref key = (.error .fileNotFoundError, s)) ∧
    (∀ a, s.fs (archivePath key) = some (Entry.archive a) →
      (restore_workspace s ref key).1 = .ok () ∧
      (∀ rest e, a ([ref] ++ rest) = some e →
        (restore_workspace s ref key).2.fs (basePath ++ ([ref] ++ rest)) = some e) ∧
      ((s.fs (basePath ++ [ref])).isSome = true →
        ∀ rest, a ([ref] ++ rest) = none →
          (restore_workspace s ref key).2.fs (basePath ++ ([ref] ++ rest)) = none)) := by
  have hsafe := safeWorkspacePath_ok ref [ref] hres
  constructor
  · intro hn
    unfold restore_workspace
    rw [hn]
  · intro a ha
    rw [restore_eq_ok s ref key (basePath ++ [ref]) a hsafe ha]
    have h1 : ∀ rest : List String,
        basePath.isPrefixOf (basePath ++ ([ref] ++ rest)) = true :=
      fun rest => isPrefixOf_append_self _ _
    have h2 : ∀ rest : List String,
        (basePath ++ ([ref] ++ rest)).drop basePath.length = [ref] ++ rest :=
      fun rest => List.drop_left _ _
    refine ⟨rfl, ?_, ?_⟩
    · intro rest e he
      rw [List.singleton_append] at he
      simp [graftAt, h1 rest, h2 rest, he]
    · intro hex rest hn
      rw [List.singleton_append] at hn
      have h3 : (basePath ++ [ref]).isPrefixOf (basePath ++ ([ref] ++ rest)) = true := by
        rw [← List.append_assoc]
        exact isPrefixOf_append_self _ _
      simp [graftAt, h1 rest, h2 rest, hn, hex, rmtree, h3]

/-- Witness for C7 on the fixture: a bogus key reports not-found with the
state unchanged, and the real key restores successfully. -/
theorem spec_c7_witness :
    restore_workspace s1Fixture "job1" "nope" = (.error .fileNotFoundError, s1Fixture) ∧
    (restore_workspace s1Fixture "job1" "job1-5").1 = .ok () := by
  constructor
  · exact (spec_c7 s1Fixture "job1" "nope" (by decide)).1 rfl
  · exact ((spec_c7 s1Fixture "job1" "job1-5" (by decide)).2 archFixture rfl).1

/-- Claim C4 (confirmed): snapshot, then arbitrary mutation of the workspace
subtree, then restore with the returned key leaves the workspace subtree
entry-for-entry identical to its state at snapshot time.  The hypotheses
say that ref is a plain directory name (a single path segment, not the
snapshots directory), that the mutated state agrees with the post-snapshot
state outside the workspace subtree, and that the mutated filesystem has no
orphaned entries under a deleted workspace directory. -/
theorem spec_c4 (s0 s1 s2 : FSState) (ref key : String)
    (hseg : splitSegs ref = [ref])
    (hres : resolvePath basePath ref = basePath ++ [ref])
    (hns : ref ≠ "snapshots")
    (hsnap : snapshot_workspace s0 ref = (.ok key, s1))
    (hmut : ∀ q, (basePath ++ [ref]).isPrefixOf q = false → s2.fs q = s1.fs q)
    (hwf : (s2.fs (basePath ++ [ref])).isSome = false →
      ∀ rest, s2.fs (basePath ++ ([ref] ++ rest)) = none) :
    (restore_workspace s2 ref key).1 = .ok () ∧
    ∀ rest, (restore_workspace s2 ref key).2.fs (basePath ++ ([ref] ++ rest)) =
      s0.fs (basePath ++ ([ref] ++ rest)) := by
  have hsafe := safeWorkspacePath_ok ref [ref] hres
  cases hex : (s0.fs (basePath ++ [ref])).isSome with
  | false =>
    rw [snapshot_eq_notfound s0 ref (basePath ++ [ref]) hsafe hex] at hsnap
    simp at hsnap
  | true =>
    rw [snapshot_eq_ok s0 ref (basePath ++ [ref]) hsafe hex, Prod.mk.injEq] at hsnap
    obtain ⟨hkey, hs1⟩ := hsnap
    have hkey2 : ref ++ "-" ++ toString s0.now = key := by simpa using hkey
    subst hkey2
    subst hs1
    have harch : s2.fs (archivePath (ref ++ "-" ++ toString s0.now)) =
        some (Entry.archive
          (tarArchive (mkdirp s0.fs snapshotsPath) (splitSegs ref))) := by
      rw [hmut _ (wsDir_not_pre_archive ref _ hns)]
      simp [setEntry]
    rw [restore_eq_ok s2 ref _ (basePath ++ [ref]) _ hsafe harch]
    refine ⟨rfl, ?_⟩
    intro rest
    have h1 : basePath.isPrefixOf (basePath ++ ([ref] ++ rest)) = true :=
      isPrefixOf_append_self _ _
    have h2 : (basePath ++ ([ref] ++ rest)).drop basePath.length = [ref] ++ rest :=
      List.drop_left _ _
    have h3 : ([ref] : List String).isPrefixOf ([ref] ++ rest) = true :=
      isPrefixOf_append_self _ _
    have h4 : (basePath ++ ([ref] ++ rest)).isPrefixOf snapshotsPath = false :=
      wsSub_not_pre_snapshots ref rest hns
    rw [hseg]
    simp only [graftAt, tarArchive, mkdirp, h1, h2, h3, h4, if_true, Bool.false_and,
      if_false, Bool.and_eq_true]
    cases hq : s0.fs (basePath ++ ([ref] ++ rest)) with
    | some e => simp [h1, h2, h3, h4, hq]
    | none =>
      cases hex2 : (s2.fs (basePath ++ [ref])).isSome with
      | true =>
        have h5 : (basePath ++ [ref]).isPrefixOf (basePath ++ ([ref] ++ rest)) = true := by
          rw [← List.append_assoc]
          exact isPrefixOf_append_self _ _
        simp [h1, h2, h3, h4, hq, hex2, rmtree, h5]
      | false =>
        simp [h1, h2, h3, h4, hq, hex2]
        exact hwf hex2 rest

/-- Witness for C4 on the fixture workspace, with the identity mutation. -/
theorem spec_c4_witness :
    (restore_workspace s1Fixture "job1" "job1-5").1 = .ok () ∧
    ∀ rest, (restore_workspace s1Fixture "job1" "job1-5").2.fs
        (basePath ++ (["job1"] ++ rest)) =
      stFixture.fs (basePath ++ (["job1"] ++ rest)) := by
  have hkey : "job1" ++ "-" ++ toString (5 : Nat) = "job1-5" := by decide
  have hsnap : snapshot_workspace stFixture "job1" = (.ok "job1-5", s1Fixture) := by
    apply Prod.ext
    · rw [snapshot_eq_ok stFixture "job1" (basePath ++ ["job1"])
        (safeWorkspacePath_ok "job1" ["job1"] (by decide)) (by decide)]
      exact congrArg Except.ok hkey
    · rfl
  exact spec_c4 stFixture s1Fixture s1Fixture "job1" "job1-5" (by decide) (by decide)
    (by decide) hsnap (fun _ _ => rfl) (fun h => absurd h (by decide))
